import Mathlib

/-!
Verification of the Activity resource controllers of the techno-systems
classroom backend (src/backend/backend/api/controllers/ActivityController.py).

The controllers are a thin layer over a relational store.  We embed the store
as explicit state: lists of activities, templates, and the primary keys of the
existing classrooms and teams.  Each controller method becomes a Lean function
from the store and the request data to an HTTP-style response (status code,
optional error message, body) and, for mutating methods, the updated store.

Django/DRF semantics embedded here:
  - serializer.save() inserts the new row immediately (line 56 of the source:
    the comment claims no commit, but DRF create() commits).
  - QuerySet.filter(pk__in=ids) returns the subset of rows whose pk is in ids;
    it never raises DoesNotExist, so the except branch at line 67 of the
    source is unreachable.
  - get(pk=x) raises DoesNotExist when absent, embedded as List.find? = none.
  - Python truthiness: None, 0, the empty string and the empty list are falsy.
-/

/-- An Activity row. `team_ids` embeds the many-to-many relation to Team
(field `team_id` in the model); `classroom_id` is the foreign key to
ClassRoom, optional because a template-instantiated activity has no class
until the controller assigns one. -/
structure Activity where
  id : Nat
  title : String
  description : String
  classroom_id : Option Nat
  team_ids : List Nat
  due_date : Option String
  evaluation : Option Nat
  total_score : Option Nat
  submission_status : Bool
  deriving Repr, DecidableEq

/-- An ActivityTemplate row: the descriptive fields of Activity minus
class, team and submission state. -/
structure ActivityTemplate where
  id : Nat
  title : String
  description : String
  due_date : Option String
  evaluation : Option Nat
  total_score : Option Nat
  deriving Repr, DecidableEq

/-- The relational store. ClassRoom and Team rows participate in these
controllers only through their primary keys, so we keep the key lists. -/
structure Store where
  activities : List Activity
  templates : List ActivityTemplate
  classrooms : List Nat
  teams : List Nat
  nextId : Nat
  deriving Repr, DecidableEq

/-- The request payload of POST /activities, after JSON decoding.
The list `team_id` mirrors request.data.get with default []. -/
structure CreatePayload where
  title : String
  description : String
  classroom_id : Option Nat
  due_date : Option String
  evaluation : Option Nat
  total_score : Option Nat
  team_id : List Nat
  deriving Repr, DecidableEq

/-- Response of the create endpoint: HTTP status, error body if any, and the
serialized activity on success. -/
structure CreateResp where
  status : Nat
  error : Option String
  activity : Option Activity
  deriving Repr, DecidableEq

/-- Response of the listing endpoints: HTTP status, error body if any, and
the serialized list of activities. -/
structure ListResp where
  status : Nat
  error : Option String
  body : List Activity
  deriving Repr, DecidableEq

/-- Python truthiness of an optional string (None and the empty string are
falsy). -/
def truthyStr : Option String → Bool
  | none => false
  | some s => s ≠ ""

/-- Python truthiness of an optional number (None and 0 are falsy). -/
def truthyNat : Option Nat → Bool
  | none => false
  | some n => n ≠ 0

/-- Modelled from the spec: the DRF ActivitySerializer (api/serializers is
absent from src/). serializer.save() builds the new Activity row from the
validated payload fields and inserts it; the team relation starts empty and
submission_status starts false. -/
def serializerSave (s : Store) (p : CreatePayload) : Activity × Store :=
  let a : Activity :=
    { id := s.nextId
      title := p.title
      description := p.description
      classroom_id := p.classroom_id
      team_ids := []
      due_date := p.due_date
      evaluation := p.evaluation
      total_score := p.total_score
      submission_status := false }
  (a, { s with activities := s.activities ++ [a], nextId := s.nextId + 1 })

/-- Replace the activity with the given id in the store (activity.save() on
an existing row). -/
def storeUpdateActivity (s : Store) (a : Activity) : Store :=
  { s with activities := s.activities.map (fun b => if b.id = a.id then a else b) }

namespace ActivityController

/-- POST /activities (ActivityController.create, source lines 51-72).
`valid` is the verdict of serializer.is_valid() — the serializer is supplied
by DRF and the schema module is not part of the reviewed source, so the
verdict is an input.  On a valid payload the activity is saved first; then,
when the team id list is nonempty, Team.objects.filter(pk__in=team_ids)
yields the existing subset of the requested teams and the relation is set to
it.  filter never raises DoesNotExist, so the 404 branch of the source is
dead code and the success response is always reached on that path. -/
def create (s : Store) (p : CreatePayload) (valid : Bool) : CreateResp × Store :=
  if valid then
    let (activity, s1) := serializerSave s p
    let team_ids := p.team_id
    if team_ids ≠ [] then
      let teams := s1.teams.filter (fun t => team_ids.contains t)
      let activity2 := { activity with team_ids := teams }
      let s2 := storeUpdateActivity s1 activity2
      (⟨201, none, some activity2⟩, s2)
    else
      (⟨400, some "Invalid or empty Team IDs provided", none⟩, s1)
  else
    (⟨400, some "serializer errors", none⟩, s)

/-- GET /classes/{class_pk}/activities (ActivityController.list, source
lines 85-96).  The class id comes from the URL kwargs, so it is either
absent (None, falsy) or a nonempty key (truthy); no existence check is made
on the classroom. -/
def list (s : Store) (class_pk : Option Nat) : ListResp :=
  match class_pk with
  | some cid => ⟨200, none, s.activities.filter (fun a => a.classroom_id = some cid)⟩
  | none => ⟨400, some "Class ID not provided", []⟩

end ActivityController

/-- The request payload of POST /classes/{class_pk}/activities/from_template
(fields read at source lines 113-117; note the key here is `team_ids`). -/
structure TemplatePayload where
  template_id : Option Nat
  team_ids : List Nat
  due_date : Option String
  evaluation : Option Nat
  total_score : Option Nat
  deriving Repr, DecidableEq

/-- Response of the from_template endpoint: HTTP status, error body if any,
and on success the serialized new activity together with the serialized
template. -/
structure TemplateResp where
  status : Nat
  error : Option String
  activity : Option Activity
  template : Option ActivityTemplate
  deriving Repr, DecidableEq

/-- Modelled from the spec: `Activity.create_activity_from_template` lives in
api/models, which is absent from src/; the spec says instantiation clones the
template fields into a new activity (class, teams and submission state are
not template fields). -/
def create_activity_from_template (freshId : Nat) (t : ActivityTemplate) : Activity :=
  { id := freshId
    title := t.title
    description := t.description
    classroom_id := none
    team_ids := []
    due_date := t.due_date
    evaluation := t.evaluation
    total_score := t.total_score
    submission_status := false }

namespace ActivityController

/-- POST /classes/{class_pk}/activities/from_template
(ActivityController.create_from_template, source lines 112-166).
Both ids are tested with `is not None`; the classroom is fetched first, then
the template (get raises DoesNotExist, giving 404).  When `team_ids` is
nonempty, Team.objects.filter(pk__in=team_ids) yields the existing subset
and never raises, so the inner 404 branch is dead code.  The three overrides
are guarded by Python truthiness of the supplied values, not by key
presence.  The new activity is persisted by new_activity.save(). -/
def create_from_template (s : Store) (class_pk : Option Nat) (p : TemplatePayload) :
    TemplateResp × Store :=
  match p.template_id, class_pk with
  | some tid, some cid =>
    if s.classrooms.contains cid then
      match s.templates.find? (fun t => t.id = tid) with
      | some template =>
        let a0 := create_activity_from_template s.nextId template
        let a1 := if p.team_ids ≠ [] then
            { a0 with team_ids := s.teams.filter (fun t => p.team_ids.contains t) }
          else a0
        let a2 := if truthyStr p.due_date then { a1 with due_date := p.due_date } else a1
        let a3 := if truthyNat p.evaluation then { a2 with evaluation := p.evaluation } else a2
        let a4 := if truthyNat p.total_score then { a3 with total_score := p.total_score } else a3
        let a5 := { a4 with classroom_id := some cid }
        let s2 := { s with activities := s.activities ++ [a5], nextId := s.nextId + 1 }
        (⟨201, none, some a5, some template⟩, s2)
      | none => (⟨404, some "ActivityTemplate matching query does not exist.", none, none⟩, s)
    else (⟨404, some "ClassRoom matching query does not exist.", none, none⟩, s)
  | _, _ => (⟨400, some "Template ID or Class ID not provided", none, none⟩, s)

end ActivityController

namespace TeamActivitiesController

/-- GET /classes/{class_pk}/teams/{team_pk}/activities
(TeamActivitiesController.list, source lines 255-280).  With both ids
present, the classroom is checked first, then the team, each missing entity
answered by a 404 naming it; otherwise the activities filtered by classroom
and by team membership are returned.  With an id missing, the team id is
reported first (source lines 272-277). -/
def list (s : Store) (class_pk team_pk : Option Nat) : ListResp :=
  match class_pk, team_pk with
  | some cid, some tid =>
    if ¬ s.classrooms.contains cid then ⟨404, some "Class not found", []⟩
    else if ¬ s.teams.contains tid then ⟨404, some "Team not found", []⟩
    else ⟨200, none,
      s.activities.filter (fun a => a.classroom_id = some cid ∧ tid ∈ a.team_ids)⟩
  | _, none => ⟨400, some "Team ID not provided", []⟩
  | none, some _ => ⟨400, some "Class ID not provided", []⟩

/-- GET /classes/{class_pk}/teams/{team_pk}/submitted_activities
(TeamActivitiesController.submitted_activities, source lines 295-320).
Identical validation to `list`, with filter condition extended by
submission_status=True. -/
def submitted_activities (s : Store) (class_pk team_pk : Option Nat) : ListResp :=
  match class_pk, team_pk with
  | some cid, some tid =>
    if ¬ s.classrooms.contains cid then ⟨404, some "Class not found", []⟩
    else if ¬ s.teams.contains tid then ⟨404, some "Team not found", []⟩
    else ⟨200, none,
      s.activities.filter (fun a =>
        a.classroom_id = some cid ∧ tid ∈ a.team_ids ∧ a.submission_status = true)⟩
  | _, none => ⟨400, some "Team ID not provided", []⟩
  | none, some _ => ⟨400, some "Class ID not provided", []⟩

end TeamActivitiesController

/-! Concrete fixtures used by witnesses and counterexamples. -/

/-- A sample template: every optional field populated. -/
def sampleTemplate : ActivityTemplate :=
  { id := 7, title := "Essay", description := "Write an essay",
    due_date := some "2024-01-01", evaluation := some 3, total_score := some 100 }

/-- A sample store: one classroom (10), three teams (1, 2, 3), one template,
no activities yet. -/
def sampleStore : Store :=
  { activities := [], templates := [sampleTemplate], classrooms := [10],
    teams := [1, 2, 3], nextId := 5 }

/-- A schema-valid creation payload requesting teams 1 and 2. -/
def samplePayload : CreatePayload :=
  { title := "hw", description := "homework", classroom_id := some 10,
    due_date := some "2024-02-02", evaluation := none, total_score := some 50,
    team_id := [1, 2] }

/-- The same payload with an empty team list. -/
def emptyTeamsPayload : CreatePayload :=
  { samplePayload with team_id := [] }

/-- The same payload requesting team 999, which does not exist in
sampleStore. -/
def ghostTeamPayload : CreatePayload :=
  { samplePayload with team_id := [999] }

/-- A from_template payload naming sampleTemplate with no overrides except a
present-but-zero total_score. -/
def zeroOverridePayload : TemplatePayload :=
  { template_id := some 7, team_ids := [], due_date := none, evaluation := none,
    total_score := some 0 }

/-- A from_template payload naming sampleTemplate with truthy overrides. -/
def overridePayload : TemplatePayload :=
  { template_id := some 7, team_ids := [1], due_date := some "2025-05-05",
    evaluation := some 4, total_score := some 80 }

/-! Claim theorems. -/

/-- C2 counterexample: class 99 does not exist in sampleStore, yet listing
its activities through ActivityController.list succeeds with 200 and an
empty list, exactly as for an existing empty class: no classroom existence
check is made on that path. -/
theorem list_nonexistent_class_succeeds :
    99 ∉ sampleStore.classrooms ∧
    ActivityController.list sampleStore (some 99) = ⟨200, none, []⟩ := by
  decide

/-- C2 amended: classroom existence is validated before the team-scoped
listings and before template instantiation, but not in plain listing by
class: there a nonexistent class yields 200, indistinguishable from an
existing class with no activities. -/
theorem class_existence_validation (s : Store) (cid tid trid : Nat)
    (p : TemplatePayload) (hc : cid ∉ s.classrooms) (hp : p.template_id = some trid) :
    (ActivityController.list s (some cid)).status = 200 ∧
    (TeamActivitiesController.list s (some cid) (some tid)).status = 404 ∧
    (TeamActivitiesController.submitted_activities s (some cid) (some tid)).status = 404 ∧
    (ActivityController.create_from_template s (some cid) p).fst.status = 404 := by
  refine ⟨rfl, ?_, ?_, ?_⟩
  · simp [TeamActivitiesController.list, hc]
  · simp [TeamActivitiesController.submitted_activities, hc]
  · simp only [ActivityController.create_from_template, hp]
    rw [if_neg (by simpa [List.contains] using hc)]

/-- Witness for the amended C2 at class 99, which is absent from
sampleStore. -/
theorem class_existence_validation_witness :
    (99 ∉ sampleStore.classrooms ∧ overridePayload.template_id = some 7) ∧
    ((ActivityController.list sampleStore (some 99)).status = 200 ∧
     (TeamActivitiesController.list sampleStore (some 99) (some 1)).status = 404 ∧
     (TeamActivitiesController.submitted_activities sampleStore (some 99)
        (some 1)).status = 404 ∧
     (ActivityController.create_from_template sampleStore (some 99)
        overridePayload).fst.status = 404) :=
  ⟨⟨by decide, by decide⟩,
   class_existence_validation sampleStore 99 1 7 overridePayload (by decide) (by decide)⟩

/-- C4: a create whose team id list is nonempty and names only existing
teams returns 201, and the persisted activity in the response carries
exactly the requested teams and is stored. -/
theorem create_all_teams_exist (s : Store) (p : CreatePayload)
    (hne : p.team_id ≠ [])
    (hall : ∀ t ∈ p.team_id, t ∈ s.teams) :
    (ActivityController.create s p true).fst.status = 201 ∧
    ∃ a, (ActivityController.create s p true).fst.activity = some a ∧
      a ∈ (ActivityController.create s p true).snd.activities ∧
      ∀ t, t ∈ a.team_ids ↔ t ∈ p.team_id := by
  refine ⟨by simp [ActivityController.create, hne], ?_⟩
  refine ⟨{ id := s.nextId, title := p.title, description := p.description,
            classroom_id := p.classroom_id,
            team_ids := s.teams.filter (fun t => p.team_id.contains t),
            due_date := p.due_date, evaluation := p.evaluation,
            total_score := p.total_score, submission_status := false }, ?_, ?_, ?_⟩
  · simp [ActivityController.create, hne, serializerSave]
  · simp only [ActivityController.create, hne, serializerSave, storeUpdateActivity,
      if_true, ne_eq, not_false_eq_true, if_pos]
    refine List.mem_map.mpr
      ⟨{ id := s.nextId, title := p.title, description := p.description,
         classroom_id := p.classroom_id, team_ids := [],
         due_date := p.due_date, evaluation := p.evaluation,
         total_score := p.total_score, submission_status := false },
       List.mem_append_right _ (by simp), by simp⟩
  · intro t
    simp only [List.mem_filter, decide_eq_true_eq, List.contains_iff_exists_mem_beq,
      beq_iff_eq]
    constructor
    · rintro ⟨-, u, hu, rfl⟩
      exact hu
    · intro h
      exact ⟨hall t h, t, h, rfl⟩

/-- Witness for C4: requesting teams 1 and 2, both present in sampleStore.
-/
theorem create_all_teams_exist_witness :
    (samplePayload.team_id ≠ [] ∧ ∀ t ∈ samplePayload.team_id, t ∈ sampleStore.teams) ∧
    ((ActivityController.create sampleStore samplePayload true).fst.status = 201 ∧
     ∃ a, (ActivityController.create sampleStore samplePayload true).fst.activity = some a ∧
       a ∈ (ActivityController.create sampleStore samplePayload true).snd.activities ∧
       ∀ t, t ∈ a.team_ids ↔ t ∈ samplePayload.team_id) :=
  ⟨⟨by decide, by decide⟩,
   create_all_teams_exist sampleStore samplePayload (by decide) (by decide)⟩

/-- C3 counterexample: the total_score key is present in the payload with
value 0, yet the created activity keeps the template value 100: the override
guard `if total_score:` tests Python truthiness, not key presence, and 0 is
falsy. -/
theorem from_template_zero_override_ignored :
    zeroOverridePayload.total_score = some 0 ∧
    sampleTemplate.total_score = some 100 ∧
    (ActivityController.create_from_template sampleStore (some 10)
        zeroOverridePayload).fst.activity.map (fun a => a.total_score) =
      some (some 100) := by
  decide

/-- C3 amended: with an existing class and template, the new activity copies
the template's descriptive fields, and each of due_date, evaluation and
total_score is overridden exactly when the supplied value is truthy in the
Python sense (non-null and neither 0 nor the empty string); a
present-but-falsy value is ignored and the template's field is kept. -/
theorem from_template_fields (s : Store) (cid trid : Nat) (p : TemplatePayload)
    (t : ActivityTemplate)
    (hp : p.template_id = some trid)
    (hc : cid ∈ s.classrooms)
    (ht : s.templates.find? (fun x => x.id = trid) = some t) :
    (ActivityController.create_from_template s (some cid) p).fst.status = 201 ∧
    ∃ a, (ActivityController.create_from_template s (some cid) p).fst.activity = some a ∧
      a.title = t.title ∧
      a.description = t.description ∧
      a.classroom_id = some cid ∧
      a.due_date = (if truthyStr p.due_date then p.due_date else t.due_date) ∧
      a.evaluation = (if truthyNat p.evaluation then p.evaluation else t.evaluation) ∧
      a.total_score = (if truthyNat p.total_score then p.total_score else t.total_score) := by
  have hcb : s.classrooms.contains cid = true := by
    simpa [List.contains] using hc
  simp only [ActivityController.create_from_template, hp, hcb, if_true, ht]
  by_cases h1 : p.team_ids = [] <;>
    by_cases h2 : truthyStr p.due_date <;>
      by_cases h3 : truthyNat p.evaluation <;>
        by_cases h4 : truthyNat p.total_score <;>
          simp [h1, h2, h3, h4, create_activity_from_template]

/-- Witness for the amended C3 with truthy overrides supplied. -/
theorem from_template_fields_witness :
    (overridePayload.template_id = some 7 ∧ 10 ∈ sampleStore.classrooms ∧
     sampleStore.templates.find? (fun x => x.id = 7) = some sampleTemplate) ∧
    ((ActivityController.create_from_template sampleStore (some 10)
        overridePayload).fst.status = 201 ∧
     ∃ a, (ActivityController.create_from_template sampleStore (some 10)
            overridePayload).fst.activity = some a ∧
       a.title = sampleTemplate.title ∧
       a.description = sampleTemplate.description ∧
       a.classroom_id = some 10 ∧
       a.due_date = (if truthyStr overridePayload.due_date then overridePayload.due_date
         else sampleTemplate.due_date) ∧
       a.evaluation = (if truthyNat overridePayload.evaluation then overridePayload.evaluation
         else sampleTemplate.evaluation) ∧
       a.total_score = (if truthyNat overridePayload.total_score then overridePayload.total_score
         else sampleTemplate.total_score)) :=
  ⟨⟨by decide, by decide, by decide⟩,
   from_template_fields sampleStore 10 7 overridePayload sampleTemplate
     (by decide) (by decide) (by decide)⟩

/-- Branch equation: team-scoped list when the classroom is missing. -/
theorem teamList_class_missing (s : Store) (cid tid : Nat) (hc : cid ∉ s.classrooms) :
    TeamActivitiesController.list s (some cid) (some tid) =
      ⟨404, some "Class not found", []⟩ := by
  simp only [TeamActivitiesController.list]
  rw [if_pos (by simp [hc])]

/-- Branch equation: team-scoped list when the team is missing. -/
theorem teamList_team_missing (s : Store) (cid tid : Nat)
    (hc : cid ∈ s.classrooms) (ht : tid ∉ s.teams) :
    TeamActivitiesController.list s (some cid) (some tid) =
      ⟨404, some "Team not found", []⟩ := by
  simp only [TeamActivitiesController.list]
  rw [if_neg (by simp [hc]), if_pos (by simp [ht])]

/-- Branch equation: team-scoped list when class and team both exist. -/
theorem teamList_ok (s : Store) (cid tid : Nat)
    (hc : cid ∈ s.classrooms) (ht : tid ∈ s.teams) :
    TeamActivitiesController.list s (some cid) (some tid) =
      ⟨200, none, s.activities.filter (fun a =>
        a.classroom_id = some cid ∧ tid ∈ a.team_ids)⟩ := by
  simp only [TeamActivitiesController.list]
  rw [if_neg (by simp [hc]), if_neg (by simp [ht])]

/-- Branch equation: submitted listing when the classroom is missing. -/
theorem submitted_class_missing (s : Store) (cid tid : Nat) (hc : cid ∉ s.classrooms) :
    TeamActivitiesController.submitted_activities s (some cid) (some tid) =
      ⟨404, some "Class not found", []⟩ := by
  simp only [TeamActivitiesController.submitted_activities]
  rw [if_pos (by simp [hc])]

/-- Branch equation: submitted listing when the team is missing. -/
theorem submitted_team_missing (s : Store) (cid tid : Nat)
    (hc : cid ∈ s.classrooms) (ht : tid ∉ s.teams) :
    TeamActivitiesController.submitted_activities s (some cid) (some tid) =
      ⟨404, some "Team not found", []⟩ := by
  simp only [TeamActivitiesController.submitted_activities]
  rw [if_neg (by simp [hc]), if_pos (by simp [ht])]

/-- Branch equation: submitted listing when class and team both exist. -/
theorem submitted_ok (s : Store) (cid tid : Nat)
    (hc : cid ∈ s.classrooms) (ht : tid ∈ s.teams) :
    TeamActivitiesController.submitted_activities s (some cid) (some tid) =
      ⟨200, none, s.activities.filter (fun a =>
        a.classroom_id = some cid ∧ tid ∈ a.team_ids ∧ a.submission_status = true)⟩ := by
  simp only [TeamActivitiesController.submitted_activities]
  rw [if_neg (by simp [hc]), if_neg (by simp [ht])]

/-- C5: with class and team both existing, submitted_activities answers 200,
every activity in the body is a submitted activity of that class and team,
and every unsubmitted activity of the pair is excluded. -/
theorem submitted_activities_filter (s : Store) (cid tid : Nat)
    (hc : cid ∈ s.classrooms) (ht : tid ∈ s.teams) :
    (TeamActivitiesController.submitted_activities s (some cid) (some tid)).status = 200 ∧
    (∀ a ∈ (TeamActivitiesController.submitted_activities s (some cid) (some tid)).body,
      a.submission_status = true ∧ a.classroom_id = some cid ∧ tid ∈ a.team_ids) ∧
    (∀ a ∈ s.activities, a.classroom_id = some cid → tid ∈ a.team_ids →
      a.submission_status = false →
      a ∉ (TeamActivitiesController.submitted_activities s (some cid) (some tid)).body) := by
  rw [submitted_ok s cid tid hc ht]
  refine ⟨rfl, ?_, ?_⟩
  · intro a ha
    simp only [List.mem_filter, decide_eq_true_eq] at ha
    exact ⟨ha.2.2.2, ha.2.1, ha.2.2.1⟩
  · intro a ha h1 h2 h3 hmem
    simp only [List.mem_filter, decide_eq_true_eq] at hmem
    rw [h3] at hmem
    exact Bool.false_ne_true hmem.2.2.2

/-- Witness for C5 at class 10 and team 1 of sampleStore. -/
theorem submitted_activities_filter_witness :
    (10 ∈ sampleStore.classrooms ∧ 1 ∈ sampleStore.teams) ∧
    ((TeamActivitiesController.submitted_activities sampleStore (some 10)
        (some 1)).status = 200 ∧
     (∀ a ∈ (TeamActivitiesController.submitted_activities sampleStore (some 10)
        (some 1)).body,
       a.submission_status = true ∧ a.classroom_id = some 10 ∧ 1 ∈ a.team_ids) ∧
     (∀ a ∈ sampleStore.activities, a.classroom_id = some 10 → 1 ∈ a.team_ids →
       a.submission_status = false →
       a ∉ (TeamActivitiesController.submitted_activities sampleStore (some 10)
        (some 1)).body)) :=
  ⟨⟨by decide, by decide⟩,
   submitted_activities_filter sampleStore 10 1 (by decide) (by decide)⟩

/-- C1: the claim says a create whose team list names a nonexistent team
returns 404 with the activity persisted teamless.  The code disagrees on the
status: Team.objects.filter(pk__in=team_ids) silently drops unknown ids and
never raises DoesNotExist, so the except branch returning 404 is
unreachable; the request succeeds with 201 and the activity persists with
only the existing teams attached (here: none).  This contradicts the
endpoint's own swagger contract, which declares 404 for teams not found.
Evaluated at the failing input: a valid payload naming only team 999 against
a store whose teams are 1, 2, 3. -/
theorem create_ghost_team_returns_201_not_404 :
    (ActivityController.create sampleStore ghostTeamPayload true).fst.status = 201 ∧
    (ActivityController.create sampleStore ghostTeamPayload true).fst.status ≠ 404 ∧
    (ActivityController.create sampleStore ghostTeamPayload true).snd.activities.map
      (fun a => a.team_ids) = [[]] := by
  decide

/-- C7: a create request whose team id list is empty returns 400 whatever
the rest of the payload and the serializer verdict are: an invalid payload
takes the serializer-errors 400 branch, a valid one reaches the
empty-team-ids 400 branch. -/
theorem create_empty_team_ids_400 (s : Store) (p : CreatePayload) (valid : Bool)
    (h : p.team_id = []) :
    (ActivityController.create s p valid).fst.status = 400 := by
  cases valid <;> simp [ActivityController.create, h]

/-- Witness for C7 at the concrete empty-team payload. -/
theorem create_empty_team_ids_400_witness :
    emptyTeamsPayload.team_id = [] ∧
    (ActivityController.create sampleStore emptyTeamsPayload true).fst.status = 400 :=
  ⟨by decide, create_empty_team_ids_400 sampleStore emptyTeamsPayload true (by decide)⟩

/-- C10: on a schema-valid payload with an empty team list, the activity row
is inserted by serializer.save() before the team list is inspected, so the
400 response leaves the store grown by one activity with no teams attached.
-/
theorem create_empty_team_ids_persists_orphan (s : Store) (p : CreatePayload)
    (h : p.team_id = []) :
    (ActivityController.create s p true).fst.status = 400 ∧
    ∃ a, (ActivityController.create s p true).snd.activities = s.activities ++ [a] ∧
      a.team_ids = [] := by
  refine ⟨by simp [ActivityController.create, h],
    ⟨{ id := s.nextId, title := p.title, description := p.description,
       classroom_id := p.classroom_id, team_ids := [], due_date := p.due_date,
       evaluation := p.evaluation, total_score := p.total_score,
       submission_status := false }, ?_, rfl⟩⟩
  simp [ActivityController.create, h, serializerSave]

/-- Witness for C10 at the concrete empty-team payload. -/
theorem create_empty_team_ids_persists_orphan_witness :
    emptyTeamsPayload.team_id = [] ∧
    ((ActivityController.create sampleStore emptyTeamsPayload true).fst.status = 400 ∧
     ∃ a, (ActivityController.create sampleStore emptyTeamsPayload true).snd.activities =
        sampleStore.activities ++ [a] ∧ a.team_ids = []) :=
  ⟨by decide,
   create_empty_team_ids_persists_orphan sampleStore emptyTeamsPayload (by decide)⟩

/-- C8: listing by class returns 400 when the class id is absent, and
otherwise 200 with exactly the activities whose classroom_id equals the
given id — in particular an empty list, not an error, when none match. -/
theorem list_by_class_exact (s : Store) (cid : Nat) :
    (ActivityController.list s none).status = 400 ∧
    (ActivityController.list s (some cid)).status = 200 ∧
    ∀ a, a ∈ (ActivityController.list s (some cid)).body ↔
      (a ∈ s.activities ∧ a.classroom_id = some cid) := by
  refine ⟨rfl, rfl, ?_⟩
  intro a
  simp [ActivityController.list, List.mem_filter]

/-- C9: template instantiation reads the template and never writes to it:
whatever the request and the store, the templates table after
create_from_template is the templates table before. -/
theorem create_from_template_frame (s : Store) (class_pk : Option Nat)
    (p : TemplatePayload) :
    (ActivityController.create_from_template s class_pk p).snd.templates = s.templates := by
  unfold ActivityController.create_from_template
  rcases p.template_id with _ | tid <;> rcases class_pk with _ | cid <;> simp
  split
  · rcases h : List.find? (fun t => t.id = tid) s.templates with _ | t <;> simp [h]
  · simp

/-- C6: team-scoped listing with both ids supplied: a missing class answers
404 naming the class, an existing class with a missing team answers 404
naming the team, and an existing pair with no matching activities answers
200 with an empty list — for both the plain and the submitted variant. -/
theorem team_scoped_listing_statuses (s : Store) (cid tid : Nat) :
    (cid ∉ s.classrooms →
      TeamActivitiesController.list s (some cid) (some tid) =
        ⟨404, some "Class not found", []⟩ ∧
      TeamActivitiesController.submitted_activities s (some cid) (some tid) =
        ⟨404, some "Class not found", []⟩) ∧
    (cid ∈ s.classrooms → tid ∉ s.teams →
      TeamActivitiesController.list s (some cid) (some tid) =
        ⟨404, some "Team not found", []⟩ ∧
      TeamActivitiesController.submitted_activities s (some cid) (some tid) =
        ⟨404, some "Team not found", []⟩) ∧
    (cid ∈ s.classrooms → tid ∈ s.teams →
      (∀ a ∈ s.activities, ¬(a.classroom_id = some cid ∧ tid ∈ a.team_ids)) →
      TeamActivitiesController.list s (some cid) (some tid) = ⟨200, none, []⟩ ∧
      TeamActivitiesController.submitted_activities s (some cid) (some tid) =
        ⟨200, none, []⟩) := by
  refine ⟨fun hc => ⟨teamList_class_missing s cid tid hc,
      submitted_class_missing s cid tid hc⟩,
    fun hc ht => ⟨teamList_team_missing s cid tid hc ht,
      submitted_team_missing s cid tid hc ht⟩,
    fun hc ht hnone => ⟨?_, ?_⟩⟩
  · rw [teamList_ok s cid tid hc ht]
    have : s.activities.filter (fun a =>
        a.classroom_id = some cid ∧ tid ∈ a.team_ids) = [] := by
      rw [List.filter_eq_nil_iff]
      intro a ha
      simpa using hnone a ha
    rw [this]
  · rw [submitted_ok s cid tid hc ht]
    have : s.activities.filter (fun a =>
        a.classroom_id = some cid ∧ tid ∈ a.team_ids ∧ a.submission_status = true) = [] := by
      rw [List.filter_eq_nil_iff]
      intro a ha
      have := hnone a ha
      simp only [decide_eq_true_eq]
      intro hcontra
      exact this ⟨hcontra.1, hcontra.2.1⟩
    rw [this]

/-- Witness for C6: class 99 is missing, team 999 is missing, and the
existing pair class 10 and team 1 has no activities in sampleStore. -/
theorem team_scoped_listing_statuses_witness :
    (TeamActivitiesController.list sampleStore (some 99) (some 1) =
        ⟨404, some "Class not found", []⟩ ∧
     TeamActivitiesController.submitted_activities sampleStore (some 99) (some 1) =
        ⟨404, some "Class not found", []⟩) ∧
    (TeamActivitiesController.list sampleStore (some 10) (some 999) =
        ⟨404, some "Team not found", []⟩ ∧
     TeamActivitiesController.submitted_activities sampleStore (some 10) (some 999) =
        ⟨404, some "Team not found", []⟩) ∧
    (TeamActivitiesController.list sampleStore (some 10) (some 1) = ⟨200, none, []⟩ ∧
     TeamActivitiesController.submitted_activities sampleStore (some 10) (some 1) =
        ⟨200, none, []⟩) :=
  ⟨(team_scoped_listing_statuses sampleStore 99 1).1 (by decide),
   (team_scoped_listing_statuses sampleStore 10 999).2.1 (by decide) (by decide),
   (team_scoped_listing_statuses sampleStore 10 1).2.2 (by decide) (by decide)
     (by intro a ha; simp [sampleStore] at ha)⟩
